import Mathlib

/-!
Verification of the mdbook-plantuml-renderer preprocessor (src/main.rs).

The development shallowly embeds the program's data model and operations:
  * the pulldown-cmark token (event) stream the preprocessor rewrites,
  * the two recognizer predicates `renderable_plantuml_start` /
    `renderable_plantuml_end` (translated from src/main.rs),
  * the SHA-1 fingerprint (the `crypto::sha1` digest invoked by the code,
    implemented here over byte lists as Nat arithmetic mod 2^32),
  * the per-span rewrite callback of `PlantumlRendererPreprocessor::run`,
    with the filesystem, the renderer subprocess and the diagnostic log made
    explicit as state,
  * the streaming rewriter `rewrite_between` of the external markedit crate
    (not part of this repository's sources; modelled from the specification),
  * the per-chapter driver, including the cmark re-serialization step.
-/

/-! ## Token model (pulldown-cmark events, as far as the program inspects them) -/

/-- Link types of pulldown-cmark; the program only ever constructs `inline`. -/
inductive LinkType where
  | inline
  | reference
  | collapsed
  | shortcut
  | autolink
  | email
  deriving DecidableEq, Repr

/-- `pulldown_cmark::CodeBlockKind`: a fenced code block carries its language
(info) string. -/
inductive CodeBlockKind where
  | indented
  | fenced (language : String)
  deriving DecidableEq, Repr

/-- The tags the program distinguishes; every other pulldown-cmark tag is
opaque to it and represented by `other`. -/
inductive Tag where
  | codeBlock (kind : CodeBlockKind)
  | image (linkType : LinkType) (url : String) (title : String)
  | other (name : String)
  deriving DecidableEq, Repr

/-- `pulldown_cmark::Event`: the program distinguishes start/end tags, text
runs and soft breaks; the remaining event kinds are opaque. -/
inductive Event where
  | start (t : Tag)
  | end_ (t : Tag)
  | text (s : String)
  | code (s : String)
  | html (s : String)
  | softBreak
  | hardBreak
  | rule
  deriving DecidableEq, Repr

/-- `static PLANTUML_RENDERABLE_LANGUAGE: &str = "plantuml,render";` -/
def PLANTUML_RENDERABLE_LANGUAGE : String := "plantuml,render"

/-- Translated from `renderable_plantuml_start` in src/main.rs: a fenced
code-block start event whose language string equals the recognized marker. -/
def renderable_plantuml_start : Event → Bool
  | .start (.codeBlock (.fenced language)) => language == PLANTUML_RENDERABLE_LANGUAGE
  | _ => false

/-- Translated from `renderable_plantuml_end` in src/main.rs: a fenced
code-block end event whose language string equals the recognized marker. -/
def renderable_plantuml_end : Event → Bool
  | .end_ (.codeBlock (.fenced language)) => language == PLANTUML_RENDERABLE_LANGUAGE
  | _ => false

/-! ## SHA-1 (the `crypto::sha1::Sha1` digest used for fingerprints)

Implemented over lists of bytes (`Nat` values below 256), with 32-bit words
represented as `Nat` reduced mod `2^32`. -/

/-- Reduce to a 32-bit word. -/
def w32 (n : Nat) : Nat := n % 4294967296

/-- Rotate a 32-bit word left by `b` bits (for `b ≤ 32` and `n < 2^32`). -/
def rotl (b n : Nat) : Nat := w32 (n * 2 ^ b + n / 2 ^ (32 - b))

/-- Big-endian byte rendering of `n` into exactly `k` bytes. -/
def beBytes : Nat → Nat → List Nat
  | 0, _ => []
  | k + 1, n => beBytes k (n / 256) ++ [n % 256]

/-- UTF-8 encoding of a single code point (`input_str` hashes the UTF-8 bytes
of the source string). -/
def utf8EncodeChar (c : Char) : List Nat :=
  let n := c.toNat
  if n < 128 then [n]
  else if n < 2048 then [192 + n / 64, 128 + n % 64]
  else if n < 65536 then [224 + n / 4096, 128 + n / 64 % 64, 128 + n % 64]
  else [240 + n / 262144, 128 + n / 4096 % 64, 128 + n / 64 % 64, 128 + n % 64]

/-- UTF-8 bytes of a string. -/
def strBytes (s : String) : List Nat := (s.data.map utf8EncodeChar).flatten

/-- SHA-1 padding: append `0x80`, zero bytes, and the 64-bit big-endian bit
length, so the total length is a multiple of 64. -/
def padMessage (msg : List Nat) : List Nat :=
  let len := msg.length
  let zeros := (55 + 64 - len % 64) % 64
  msg ++ 128 :: List.replicate zeros 0 ++ beBytes 8 (len * 8)

/-- Group bytes into 64-byte blocks (structural recursion on a fuel bound;
each step consumes at least one byte, so `xs.length` steps suffice). -/
def chunksAux : Nat → List Nat → List (List Nat)
  | 0, _ => []
  | _, [] => []
  | fuel + 1, x :: xs => (x :: xs).take 64 :: chunksAux fuel ((x :: xs).drop 64)

/-- Group bytes into 64-byte blocks. -/
def chunks64 (xs : List Nat) : List (List Nat) := chunksAux xs.length xs

/-- Combine four bytes into one big-endian 32-bit word each. -/
def bytesToWords : List Nat → List Nat
  | b0 :: b1 :: b2 :: b3 :: rest =>
      (((b0 * 256 + b1) * 256 + b2) * 256 + b3) :: bytesToWords rest
  | _ => []

/-- The 80-entry SHA-1 message schedule from a 16-word block. -/
def sha1Schedule (ws : List Nat) : List Nat :=
  (List.range 80).foldl
    (fun acc i =>
      if i < 16 then acc ++ [ws.getD i 0]
      else acc ++ [rotl 1 ((acc.getD (i - 3) 0 ^^^ acc.getD (i - 8) 0) ^^^
                           (acc.getD (i - 14) 0 ^^^ acc.getD (i - 16) 0))])
    []

/-- The five-word SHA-1 working state. -/
structure Sha1Words where
  a : Nat
  b : Nat
  c : Nat
  d : Nat
  e : Nat
  deriving DecidableEq, Repr

/-- One SHA-1 round: round index `i`, state, schedule word `wi`. -/
def sha1Round (i : Nat) (st : Sha1Words) (wi : Nat) : Sha1Words :=
  let f :=
    if i < 20 then (st.b &&& st.c) ||| ((4294967295 - st.b) &&& st.d)
    else if i < 40 then (st.b ^^^ st.c) ^^^ st.d
    else if i < 60 then ((st.b &&& st.c) ||| (st.b &&& st.d)) ||| (st.c &&& st.d)
    else (st.b ^^^ st.c) ^^^ st.d
  let k :=
    if i < 20 then 1518500249
    else if i < 40 then 1859775393
    else if i < 60 then 2400959708
    else 3395469782
  let temp := w32 (rotl 5 st.a + f + st.e + k + wi)
  ⟨temp, st.a, rotl 30 st.b, st.c, st.d⟩

/-- Compress one 16-word block into the running state. -/
def sha1Compress (h : Sha1Words) (block : List Nat) : Sha1Words :=
  let ws := sha1Schedule block
  let fin := (List.range 80).foldl (fun st i => sha1Round i st (ws.getD i 0)) h
  ⟨w32 (h.a + fin.a), w32 (h.b + fin.b), w32 (h.c + fin.c),
   w32 (h.d + fin.d), w32 (h.e + fin.e)⟩

/-- The SHA-1 initialization vector. -/
def sha1Init : Sha1Words :=
  ⟨1732584193, 4023233417, 2562383102, 271733878, 3285377520⟩

/-- SHA-1 digest of a byte list: twenty big-endian bytes. -/
def sha1Bytes (msg : List Nat) : List Nat :=
  let fin := (chunks64 (padMessage msg)).foldl
    (fun h block => sha1Compress h (bytesToWords block)) sha1Init
  beBytes 4 fin.a ++ beBytes 4 fin.b ++ beBytes 4 fin.c ++
  beBytes 4 fin.d ++ beBytes 4 fin.e

/-- Lowercase hex digit. -/
def hexDigit (n : Nat) : Char :=
  if n < 10 then Char.ofNat (48 + n) else Char.ofNat (87 + n)

/-- Two lowercase hex characters per byte, as `result_str` renders them. -/
def hexChars (bs : List Nat) : List Char :=
  (bs.map (fun b => [hexDigit (b / 16), hexDigit (b % 16)])).flatten

/-- Hex string of a byte list. -/
def hexString (bs : List Nat) : String := String.mk (hexChars bs)

/-- `Sha1::new(); hasher.input_str(code); hasher.result_str()`: the SHA-1
digest of the string's UTF-8 bytes, rendered as forty lowercase hex
characters. -/
def sha1hex (s : String) : String := hexString (sha1Bytes (strBytes s))

/-! ## Filesystem, subprocess and diagnostic state

The rewrite callback in `PlantumlRendererPreprocessor::run` touches the real
filesystem (`exists`, `File::create`, `write!`), spawns the PlantUML
subprocess (`Command::new(...).output()`), and logs through `trace!`/`debug!`.
These effects are made explicit: the filesystem is the list of existing paths,
and the run records the diagnostic lines, the paths written and the renderer
invocations. -/

/-- The result of `Command::output()` when the subprocess could be spawned:
exit status, captured output bytes decoded as UTF-8 (`none` models invalid
UTF-8, on which `String::from_utf8(..).unwrap()` panics), and the files the
subprocess created. -/
structure SubprocessResult where
  exitCode : Nat
  stdoutUtf8 : Option String
  stderrUtf8 : Option String
  createdFiles : List String

/-- The external PlantUML executable, as an opaque collaborator: given the
`.puml` path argument and the current filesystem, either `none` (spawn
failure, on which `.expect("Failed to run PlantUML")` panics) or a result. -/
def Renderer : Type := String → List String → Option SubprocessResult

/-- The explicit state threaded through one chapter's rewrite: existing
files, diagnostic log lines, paths written, and renderer invocations (the
`.puml` path passed on each `Command` spawn). -/
structure PipeState where
  fs : List String
  log : List String
  writes : List String
  invocations : List String
  deriving DecidableEq, Repr

/-- Outcome of a code region that may panic (Rust `unwrap`/`expect`) or
propagate an error (`?` / returned `Err`). -/
inductive Outcome (α : Type) where
  | ok : α → Outcome α
  | err : String → Outcome α
  | panicked : String → Outcome α
  deriving DecidableEq, Repr

/-- Discriminator: did the computation return `Err`? -/
def Outcome.isErr {α : Type} : Outcome α → Bool
  | .err _ => true
  | _ => false

/-- Translated from the callback in src/main.rs: the `plantuml_code`
extraction — `events.iter().map(|e| match e { Event::Text(t) => t.to_string(),
_ => "".into() }).collect::<String>()`. -/
def extractCode (events : List Event) : String :=
  String.join (events.map (fun e =>
    match e with
    | .text plantuml_text => plantuml_text
    | _ => ""))

/-- The intermediate source path `outputDir / hash . puml` built by the
callback (`PathBuf::push` twice then `set_extension("puml")`). -/
def pumlPath (dir hash : String) : String := dir ++ "/" ++ hash ++ ".puml"

/-- The candidate artifact path `outputDir / hash . svg` built by the
callback (`PathBuf::push` twice then `set_extension("svg")`). -/
def svgPath (dir hash : String) : String := dir ++ "/" ++ hash ++ ".svg"

/-- The three events the callback pushes after `events.clear()`: an inline
image start, an inline image end (both with the artifact path as URL and an
empty title), and a soft break. -/
def replacementEvents (svg : String) : List Event :=
  [Event.start (Tag.image LinkType.inline svg ""),
   Event.end_ (Tag.image LinkType.inline svg ""),
   Event.softBreak]

/-- Translated from the rewrite callback of `PlantumlRendererPreprocessor::run`
(src/main.rs): extract the diagram source, clear the buffer, fingerprint it,
check whether the artifact exists (cache hit); on a miss write the `.puml`
file and spawn the renderer; in all non-panicking cases push the replacement
image events. Diagnostic lines mirror the `trace!`/`debug!` calls. -/
def plantumlCallback (renderer : Renderer) (plantuml_build_directory : String)
    (events : List Event) (st : PipeState) : Outcome (List Event × PipeState) :=
  let plantuml_code := extractCode events
  let plantuml_hash_sum := sha1hex plantuml_code
  let plantuml_svg_filename := svgPath plantuml_build_directory plantuml_hash_sum
  let log0 := st.log ++
    ["Found plantuml:\n" ++ plantuml_code,
     "Plantuml SHA1 hash sum: " ++ plantuml_hash_sum,
     "Filename: " ++ plantuml_svg_filename]
  if plantuml_svg_filename ∈ st.fs then
    .ok (replacementEvents plantuml_svg_filename,
         ⟨st.fs, log0, st.writes, st.invocations⟩)
  else
    let puml_filename := pumlPath plantuml_build_directory plantuml_hash_sum
    let log1 := log0 ++ ["SVG doesn't exist, writing PUML data: " ++ puml_filename]
    let fs1 := st.fs ++ [puml_filename]
    match renderer puml_filename fs1 with
    | none => .panicked "Failed to run PlantUML"
    | some output =>
      let fs2 := fs1 ++ output.createdFiles
      let log2 := log1 ++ ["PlantUML Exit Status: exit status: " ++ toString output.exitCode]
      match output.stdoutUtf8 with
      | none => .panicked "invalid utf-8 sequence"
      | some out_str =>
        match output.stderrUtf8 with
        | none => .panicked "invalid utf-8 sequence"
        | some err_str =>
          .ok (replacementEvents plantuml_svg_filename,
               ⟨fs2,
                log2 ++ ["PlantUML stdout: " ++ out_str,
                         "PlantUML stderr: " ++ err_str],
                st.writes ++ [puml_filename],
                st.invocations ++ [puml_filename]⟩)

/-! ## The streaming rewriter (markedit's `rewrite_between`)

The `markedit` crate is an external collaborator whose sources are not part
of this repository; it is modelled from the specification. -/

/-- Modelled from the spec: the Span Matcher / Rewriter state machine behind
markedit's `rewrite_between` (§4.2, §4.3). The first argument is the matcher
state: `none` is `Outside`, `some buf` is `Inside` with the buffered span so
far. A token satisfying `isStart` while `Outside` begins buffering; a token
satisfying `isEnd` while `Inside` completes the span (inclusive of both
marker tokens) and hands it to the callback, whose replacement is emitted in
place; every other token is passed through (`Outside`) or buffered
(`Inside`). Per §9, if the stream ends while `Inside`, the reference
implementation silently drops the buffered content. The callback threads the
explicit `PipeState` and may panic. -/
def rewriteGo (isStart isEnd : Event → Bool)
    (rewrite : List Event → PipeState → Outcome (List Event × PipeState)) :
    Option (List Event) → PipeState → List Event → Outcome (List Event × PipeState)
  | none, st, [] => .ok ([], st)
  | some _, st, [] => .ok ([], st)
  | none, st, e :: rest =>
    if isStart e then rewriteGo isStart isEnd rewrite (some [e]) st rest
    else
      match rewriteGo isStart isEnd rewrite none st rest with
      | .ok (out, st') => .ok (e :: out, st')
      | other => other
  | some buf, st, e :: rest =>
    if isEnd e then
      match rewrite (buf ++ [e]) st with
      | .ok (repl, st') =>
        match rewriteGo isStart isEnd rewrite none st' rest with
        | .ok (out, st'') => .ok (repl ++ out, st'')
        | other => other
      | .err m => .err m
      | .panicked m => .panicked m
    else rewriteGo isStart isEnd rewrite (some (buf ++ [e])) st rest

/-- Modelled from the spec: markedit's `rewrite_between(events, start, end,
rewrite)`, starting the matcher in state `Outside`. -/
def rewrite_between (isStart isEnd : Event → Bool)
    (rewrite : List Event → PipeState → Outcome (List Event × PipeState))
    (events : List Event) (st : PipeState) : Outcome (List Event × PipeState) :=
  rewriteGo isStart isEnd rewrite none st events

/-! ## The per-chapter driver -/

/-- `determine_build_directory` from src/main.rs: the book root joined with
the configured build directory. -/
structure PreprocessorContext where
  root : String
  build_dir : String

/-- `determine_build_directory(context)`: `root / build_dir`. -/
def determine_build_directory (context : PreprocessorContext) : String :=
  context.root ++ "/" ++ context.build_dir

/-- `determine_plantuml_output_directory(context)`:
`root / build_dir / "plantuml-renderer"`. -/
def determine_plantuml_output_directory (context : PreprocessorContext) : String :=
  determine_build_directory context ++ "/" ++ "plantuml-renderer"

/-- Translated from the chapter-processing body of
`PlantumlRendererPreprocessor::run` (src/main.rs): rewrite the chapter's
events with `rewrite_between` and the PlantUML callback, then re-serialize
with `cmark`. The serializer is the external pulldown-cmark-to-cmark
collaborator, passed as a parameter; on a serialization `Err` the code calls
`.unwrap()` on the mapped error, i.e. it panics with the formatted message
rather than returning an `Err`. -/
def processChapter (renderer : Renderer) (plantuml_build_directory : String)
    (serialize : List Event → Except String String)
    (events : List Event) (st : PipeState) : Outcome (String × PipeState) :=
  match rewrite_between renderable_plantuml_start renderable_plantuml_end
      (plantumlCallback renderer plantuml_build_directory) events st with
  | .ok (out, st') =>
    match serialize out with
    | .ok content => .ok (content, st')
    | .error e => .panicked ("Markdown serialization failed: " ++ e)
  | .err m => .err m
  | .panicked m => .panicked m

/-! ## Concrete fixtures shared by the witnesses -/

/-- The renderable fence-start token. -/
def fenceStartTok : Event :=
  Event.start (Tag.codeBlock (CodeBlockKind.fenced PLANTUML_RENDERABLE_LANGUAGE))

/-- The renderable fence-end token. -/
def fenceEndTok : Event :=
  Event.end_ (Tag.codeBlock (CodeBlockKind.fenced PLANTUML_RENDERABLE_LANGUAGE))

/-- A stub renderer: spawns, exits 0, captures empty UTF-8 output, creates
nothing. -/
def stubRenderer : Renderer := fun _ _ => some ⟨0, some "", some "", []⟩

/-- A stub renderer that honours the subprocess contract of §6: it creates
the artifact at the candidate path (the `.puml` argument with its extension
replaced by `.svg`). -/
def goodRenderer : Renderer :=
  fun puml _ => some ⟨0, some "", some "", [puml.dropRight 5 ++ ".svg"]⟩

/-- A stub renderer that fails with a non-zero exit status and creates no
artifact. -/
def failingRenderer : Renderer := fun _ _ => some ⟨1, some "", some "PlantUML crashed", []⟩

/-- The initial, empty pipeline state. -/
def emptyState : PipeState := ⟨[], [], [], []⟩

/-! ## Helper lemmas -/

lemma beBytes_length (k n : Nat) : (beBytes k n).length = k := by
  induction k generalizing n with
  | zero => rfl
  | succ k ih => simp [beBytes, ih]

lemma beBytes_lt (k n : Nat) : ∀ b ∈ beBytes k n, b < 256 := by
  induction k generalizing n with
  | zero => simp [beBytes]
  | succ k ih =>
    intro b hb
    simp only [beBytes, List.mem_append, List.mem_singleton] at hb
    rcases hb with hb | hb
    · exact ih _ _ hb
    · subst hb; exact Nat.mod_lt _ (by decide)

lemma sha1Bytes_length (msg : List Nat) : (sha1Bytes msg).length = 20 := by
  simp [sha1Bytes, beBytes_length]

lemma sha1Bytes_lt (msg : List Nat) : ∀ b ∈ sha1Bytes msg, b < 256 := by
  intro b hb
  simp only [sha1Bytes, List.mem_append] at hb
  rcases hb with ((((hb | hb) | hb) | hb) | hb) <;> exact beBytes_lt _ _ _ hb

lemma hexChars_length (bs : List Nat) : (hexChars bs).length = 2 * bs.length := by
  induction bs with
  | nil => rfl
  | cons b rest ih =>
    simp only [hexChars, List.map_cons, List.flatten_cons] at ih ⊢
    simp only [List.length_append, List.length_cons, List.length_nil, ih]
    omega

lemma sha1hex_length (s : String) : (sha1hex s).length = 40 := by
  show (hexChars (sha1Bytes (strBytes s))).length = 40
  rw [hexChars_length, sha1Bytes_length]

/-- The matcher passes through a token stream containing no start token. -/
lemma rewriteGo_no_start (isStart isEnd : Event → Bool)
    (rewrite : List Event → PipeState → Outcome (List Event × PipeState))
    (events : List Event) (st : PipeState)
    (h : ∀ e ∈ events, isStart e = false) :
    rewriteGo isStart isEnd rewrite none st events = .ok (events, st) := by
  induction events with
  | nil => rfl
  | cons e rest ih =>
    have he := h e (List.mem_cons_self e rest)
    have ih' := ih (fun x hx => h x (List.mem_cons_of_mem e hx))
    simp [rewriteGo, he, ih']

lemma extractCode_span (S : String) :
    extractCode [fenceStartTok, Event.text S, fenceEndTok] = S := by
  simp [extractCode, fenceStartTok, fenceEndTok, String.join, List.foldl]

lemma data_empty : ("" : String).data = [] := rfl

/-- The diagnostic lines every callback run emits before the cache check. -/
def commonLog (dir code : String) : List String :=
  ["Found plantuml:\n" ++ code,
   "Plantuml SHA1 hash sum: " ++ sha1hex code,
   "Filename: " ++ svgPath dir (sha1hex code)]

/-- The state after a cache-hit resolution: only the diagnostic log grows. -/
def hitState (dir code : String) (st : PipeState) : PipeState :=
  ⟨st.fs, st.log ++ commonLog dir code, st.writes, st.invocations⟩

/-- The state after a cache-miss resolution whose subprocess spawned with
UTF-8 output: the `.puml` file is written, the subprocess may have created
files, and the invocation is recorded. -/
def missState (dir code : String) (output : SubprocessResult) (outS errS : String)
    (st : PipeState) : PipeState :=
  ⟨st.fs ++ [pumlPath dir (sha1hex code)] ++ output.createdFiles,
   st.log ++ commonLog dir code ++
     ["SVG doesn't exist, writing PUML data: " ++ pumlPath dir (sha1hex code),
      "PlantUML Exit Status: exit status: " ++ toString output.exitCode,
      "PlantUML stdout: " ++ outS,
      "PlantUML stderr: " ++ errS],
   st.writes ++ [pumlPath dir (sha1hex code)],
   st.invocations ++ [pumlPath dir (sha1hex code)]⟩

/-- Evaluating the callback on a cache hit: the artifact exists, so no
subprocess runs, no file is written, and only the diagnostic log grows. -/
lemma plantumlCallback_hit (renderer : Renderer) (dir : String) (events : List Event)
    (st : PipeState)
    (h : svgPath dir (sha1hex (extractCode events)) ∈ st.fs) :
    plantumlCallback renderer dir events st =
      .ok (replacementEvents (svgPath dir (sha1hex (extractCode events))),
           hitState dir (extractCode events) st) := by
  simp [plantumlCallback, hitState, commonLog, h]

/-- Evaluating the callback on a cache miss where the subprocess spawns and
its captured output decodes as UTF-8: the `.puml` file is written, the
renderer is invoked once, and the replacement events are emitted regardless
of the exit status or of which files the subprocess created. -/
lemma plantumlCallback_miss (renderer : Renderer) (dir : String) (events : List Event)
    (st : PipeState) (output : SubprocessResult) (outS errS : String)
    (hm : svgPath dir (sha1hex (extractCode events)) ∉ st.fs)
    (hr : renderer (pumlPath dir (sha1hex (extractCode events)))
            (st.fs ++ [pumlPath dir (sha1hex (extractCode events))]) = some output)
    (ho : output.stdoutUtf8 = some outS)
    (he : output.stderrUtf8 = some errS) :
    plantumlCallback renderer dir events st =
      .ok (replacementEvents (svgPath dir (sha1hex (extractCode events))),
           missState dir (extractCode events) output outS errS st) := by
  simp [plantumlCallback, missState, commonLog, hm, hr, ho, he]

/-- A single non-start token at the head of the stream passes through. -/
lemma rewriteGo_cons_pass (isStart isEnd : Event → Bool)
    (cb : List Event → PipeState → Outcome (List Event × PipeState))
    (e : Event) (rest : List Event) (st : PipeState) (out : List Event) (st' : PipeState)
    (he : isStart e = false)
    (hrec : rewriteGo isStart isEnd cb none st rest = .ok (out, st')) :
    rewriteGo isStart isEnd cb none st (e :: rest) = .ok (e :: out, st') := by
  simp [rewriteGo, he, hrec]

/-- Processing a well-formed renderable span at the head of the stream,
followed by a start-free remainder: the callback's replacement is emitted in
place and the remainder passes through. -/
lemma rewrite_span (cb : List Event → PipeState → Outcome (List Event × PipeState))
    (S : String) (rest : List Event) (st : PipeState)
    (repl : List Event) (st' : PipeState)
    (hcb : cb [fenceStartTok, Event.text S, fenceEndTok] st = .ok (repl, st'))
    (hrest : ∀ e ∈ rest, renderable_plantuml_start e = false) :
    rewrite_between renderable_plantuml_start renderable_plantuml_end cb
      (fenceStartTok :: Event.text S :: fenceEndTok :: rest) st =
      .ok (repl ++ rest, st') := by
  have h2 := rewriteGo_no_start renderable_plantuml_start renderable_plantuml_end cb rest st' hrest
  simp only [fenceStartTok, fenceEndTok] at hcb
  simp [rewrite_between, rewriteGo, renderable_plantuml_start, renderable_plantuml_end,
        fenceStartTok, fenceEndTok, hcb, h2]

lemma renderable_start_iff (e : Event) :
    renderable_plantuml_start e = true ↔ e = fenceStartTok := by
  cases e with
  | start t =>
    cases t with
    | codeBlock k =>
      cases k with
      | indented => simp [renderable_plantuml_start, fenceStartTok]
      | fenced lang => simp [renderable_plantuml_start, fenceStartTok]
    | image a b c => simp [renderable_plantuml_start, fenceStartTok]
    | other n => simp [renderable_plantuml_start, fenceStartTok]
  | end_ t => simp [renderable_plantuml_start, fenceStartTok]
  | text s => simp [renderable_plantuml_start, fenceStartTok]
  | code s => simp [renderable_plantuml_start, fenceStartTok]
  | html s => simp [renderable_plantuml_start, fenceStartTok]
  | softBreak => simp [renderable_plantuml_start, fenceStartTok]
  | hardBreak => simp [renderable_plantuml_start, fenceStartTok]
  | rule => simp [renderable_plantuml_start, fenceStartTok]

lemma renderable_end_iff (e : Event) :
    renderable_plantuml_end e = true ↔ e = fenceEndTok := by
  cases e with
  | end_ t =>
    cases t with
    | codeBlock k =>
      cases k with
      | indented => simp [renderable_plantuml_end, fenceEndTok]
      | fenced lang => simp [renderable_plantuml_end, fenceEndTok]
    | image a b c => simp [renderable_plantuml_end, fenceEndTok]
    | other n => simp [renderable_plantuml_end, fenceEndTok]
  | start t => simp [renderable_plantuml_end, fenceEndTok]
  | text s => simp [renderable_plantuml_end, fenceEndTok]
  | code s => simp [renderable_plantuml_end, fenceEndTok]
  | html s => simp [renderable_plantuml_end, fenceEndTok]
  | softBreak => simp [renderable_plantuml_end, fenceEndTok]
  | hardBreak => simp [renderable_plantuml_end, fenceEndTok]
  | rule => simp [renderable_plantuml_end, fenceEndTok]

/-! ## The claims -/

/-- C4: the fingerprint is a pure, deterministic function: byte-identical
sources yield identical digests, and the digest is a fixed 160-bit (twenty
byte) value rendered as a forty-character hex string, so equal sources always
yield the same artifact filename stem. -/
theorem fingerprint_pure_deterministic (s1 s2 : String) (h : s1 = s2) :
    sha1hex s1 = sha1hex s2 ∧
    (sha1Bytes (strBytes s1)).length = 20 ∧
    (∀ b ∈ sha1Bytes (strBytes s1), b < 256) ∧
    (sha1hex s1).length = 40 :=
  ⟨by rw [h], sha1Bytes_length _, sha1Bytes_lt _, sha1hex_length _⟩

/-- Witness for C4 at the concrete source "FOO". -/
theorem fingerprint_pure_deterministic_witness :
    sha1hex "FOO" = sha1hex "FOO" ∧
    (sha1Bytes (strBytes "FOO")).length = 20 ∧
    (∀ b ∈ sha1Bytes (strBytes "FOO"), b < 256) ∧
    (sha1hex "FOO").length = 40 :=
  fingerprint_pure_deterministic "FOO" "FOO" rfl

/-- Following the spec's words (§3, Diagram Source): "the concatenation of
all literal text carried by tokens inside a Matched Span, with all non-text
tokens (fences, markers) discarded". -/
def diagramSourceSpec (events : List Event) : String :=
  String.join (events.filterMap (fun e =>
    match e with
    | .text s => some s
    | _ => none))

/-- C5: the diagram source handed to the cache is exactly the in-order
concatenation of the literal text of the span's text tokens; every non-text
token contributes nothing. -/
theorem diagram_source_extraction (events : List Event) :
    extractCode events = diagramSourceSpec events := by
  apply String.ext
  simp only [extractCode, diagramSourceSpec, String.join_eq]
  induction events with
  | nil => rfl
  | cons e rest ih => cases e <;> simpa [data_empty] using ih

/-- C3: a token opens (closes) a renderable region iff it is a fenced
code-block start (end) token whose language tag equals the recognized marker,
by exact string equality; a fenced block with any other language tag is left
completely untouched in the output. -/
theorem renderable_marker_exact (e : Event) :
    ((renderable_plantuml_start e = true ↔ e = fenceStartTok) ∧
     (renderable_plantuml_end e = true ↔ e = fenceEndTok)) ∧
    (∀ (lang content : String) (renderer : Renderer) (dir : String) (st : PipeState),
      lang ≠ PLANTUML_RENDERABLE_LANGUAGE →
      rewrite_between renderable_plantuml_start renderable_plantuml_end
        (plantumlCallback renderer dir)
        [Event.start (Tag.codeBlock (CodeBlockKind.fenced lang)), Event.text content,
         Event.end_ (Tag.codeBlock (CodeBlockKind.fenced lang))] st =
      .ok ([Event.start (Tag.codeBlock (CodeBlockKind.fenced lang)), Event.text content,
            Event.end_ (Tag.codeBlock (CodeBlockKind.fenced lang))], st)) := by
  refine ⟨⟨renderable_start_iff e, renderable_end_iff e⟩,
          fun lang content renderer dir st hlang => ?_⟩
  apply rewriteGo_no_start
  intro x hx
  simp only [List.mem_cons, List.not_mem_nil, or_false] at hx
  rcases hx with hx | hx | hx <;> subst hx <;>
    simp [renderable_plantuml_start, hlang]

/-- Witness for C3: the marker token itself, and a concrete non-matching
fenced block passed through untouched. -/
theorem renderable_marker_exact_witness :
    ((renderable_plantuml_start fenceStartTok = true ↔ fenceStartTok = fenceStartTok) ∧
     (renderable_plantuml_end fenceStartTok = true ↔ fenceStartTok = fenceEndTok)) ∧
    rewrite_between renderable_plantuml_start renderable_plantuml_end
      (plantumlCallback stubRenderer "out")
      [Event.start (Tag.codeBlock (CodeBlockKind.fenced "plantuml")), Event.text "FOO",
       Event.end_ (Tag.codeBlock (CodeBlockKind.fenced "plantuml"))] emptyState =
    .ok ([Event.start (Tag.codeBlock (CodeBlockKind.fenced "plantuml")), Event.text "FOO",
          Event.end_ (Tag.codeBlock (CodeBlockKind.fenced "plantuml"))], emptyState) :=
  ⟨(renderable_marker_exact fenceStartTok).1,
   (renderable_marker_exact fenceStartTok).2 "plantuml" "FOO" stubRenderer "out" emptyState
     (by decide)⟩

/-- C6: the Rewriter passes every non-matched token through unmodified and in
original relative order; for a token sequence with zero matched spans (no
start token matches), the output sequence equals the input exactly, the
callback never runs and the state is untouched. -/
theorem rewriter_order_preservation (isStart isEnd : Event → Bool)
    (rewrite : List Event → PipeState → Outcome (List Event × PipeState))
    (events : List Event) (st : PipeState)
    (h : ∀ e ∈ events, isStart e = false) :
    rewrite_between isStart isEnd rewrite events st = .ok (events, st) :=
  rewriteGo_no_start isStart isEnd rewrite events st h

/-- A six-token document with no renderable span. -/
def passThroughDoc : List Event :=
  [Event.text "hello", Event.softBreak,
   Event.start (Tag.codeBlock (CodeBlockKind.fenced "rust")), Event.text "fn main()",
   Event.end_ (Tag.codeBlock (CodeBlockKind.fenced "rust")), Event.rule]

/-- Witness for C6 on a concrete span-free document. -/
theorem rewriter_order_preservation_witness :
    rewrite_between renderable_plantuml_start renderable_plantuml_end
      (plantumlCallback stubRenderer "out") passThroughDoc emptyState =
    .ok (passThroughDoc, emptyState) :=
  rewriter_order_preservation _ _ _ passThroughDoc emptyState (by decide)

/-- C1: cache-hit idempotence. If the artifact named by the source's
fingerprint already exists, resolution returns its path with no renderer
invocation and no filesystem write (only the diagnostic log grows); and if it
does not exist but the renderer honours its contract (spawns, UTF-8 output,
creates the candidate artifact), resolving the same diagram source twice
invokes the renderer exactly once, the second resolution being a pure cache
hit. -/
theorem cache_hit_idempotence (renderer : Renderer) (dir : String) (events : List Event) :
    (∀ st : PipeState, svgPath dir (sha1hex (extractCode events)) ∈ st.fs →
      plantumlCallback renderer dir events st =
        .ok (replacementEvents (svgPath dir (sha1hex (extractCode events))),
             hitState dir (extractCode events) st) ∧
      (hitState dir (extractCode events) st).fs = st.fs ∧
      (hitState dir (extractCode events) st).writes = st.writes ∧
      (hitState dir (extractCode events) st).invocations = st.invocations) ∧
    (∀ (st : PipeState) (output : SubprocessResult) (outS errS : String),
      svgPath dir (sha1hex (extractCode events)) ∉ st.fs →
      renderer (pumlPath dir (sha1hex (extractCode events)))
          (st.fs ++ [pumlPath dir (sha1hex (extractCode events))]) = some output →
      output.stdoutUtf8 = some outS →
      output.stderrUtf8 = some errS →
      svgPath dir (sha1hex (extractCode events)) ∈ output.createdFiles →
      plantumlCallback renderer dir events st =
        .ok (replacementEvents (svgPath dir (sha1hex (extractCode events))),
             missState dir (extractCode events) output outS errS st) ∧
      plantumlCallback renderer dir events
          (missState dir (extractCode events) output outS errS st) =
        .ok (replacementEvents (svgPath dir (sha1hex (extractCode events))),
             hitState dir (extractCode events)
               (missState dir (extractCode events) output outS errS st)) ∧
      (hitState dir (extractCode events)
          (missState dir (extractCode events) output outS errS st)).invocations =
        st.invocations ++ [pumlPath dir (sha1hex (extractCode events))]) := by
  constructor
  · intro st h
    exact ⟨plantumlCallback_hit renderer dir events st h, rfl, rfl, rfl⟩
  · intro st output outS errS hm hr ho he hcf
    refine ⟨plantumlCallback_miss renderer dir events st output outS errS hm hr ho he, ?_, rfl⟩
    apply plantumlCallback_hit
    simp [missState, hcf]

/-- The subprocess result `goodRenderer` produces for the "FOO" fixture. -/
def goodOutput : SubprocessResult :=
  ⟨0, some "", some "",
   [(pumlPath "out" (sha1hex (extractCode [Event.text "FOO"]))).dropRight 5 ++ ".svg"]⟩

set_option maxRecDepth 100000 in
/-- Witness for C1: a concrete miss followed by a pure cache hit, one
invocation in total. -/
theorem cache_hit_idempotence_witness :
    plantumlCallback goodRenderer "out" [Event.text "FOO"] emptyState =
      .ok (replacementEvents (svgPath "out" (sha1hex (extractCode [Event.text "FOO"]))),
           missState "out" (extractCode [Event.text "FOO"]) goodOutput "" "" emptyState) ∧
    plantumlCallback goodRenderer "out" [Event.text "FOO"]
        (missState "out" (extractCode [Event.text "FOO"]) goodOutput "" "" emptyState) =
      .ok (replacementEvents (svgPath "out" (sha1hex (extractCode [Event.text "FOO"]))),
           hitState "out" (extractCode [Event.text "FOO"])
             (missState "out" (extractCode [Event.text "FOO"]) goodOutput "" "" emptyState)) ∧
    (hitState "out" (extractCode [Event.text "FOO"])
        (missState "out" (extractCode [Event.text "FOO"]) goodOutput "" "" emptyState)).invocations =
      emptyState.invocations ++ [pumlPath "out" (sha1hex (extractCode [Event.text "FOO"]))] :=
  (cache_hit_idempotence goodRenderer "out" [Event.text "FOO"]).2 emptyState goodOutput "" ""
    (by decide) rfl rfl rfl (by decide)

set_option maxRecDepth 100000 in
/-- C7: renderer-failure leniency. On a cache miss whose subprocess fails
(non-zero exit, or zero exit without producing the artifact), the callback
still returns the candidate artifact path, the replacement image events are
still emitted pointing at that (possibly absent) path, the exit status and
captured stderr are reported on the diagnostic channel, and the rest of the
document is still processed. -/
theorem renderer_failure_lenient (renderer : Renderer) (dir S : String)
    (rest : List Event) (st : PipeState) (output : SubprocessResult) (outS errS : String)
    (hm : svgPath dir (sha1hex S) ∉ st.fs)
    (hr : renderer (pumlPath dir (sha1hex S)) (st.fs ++ [pumlPath dir (sha1hex S)]) = some output)
    (ho : output.stdoutUtf8 = some outS)
    (he : output.stderrUtf8 = some errS)
    (_hfail : output.exitCode ≠ 0 ∨ svgPath dir (sha1hex S) ∉ output.createdFiles)
    (hrest : ∀ e ∈ rest, renderable_plantuml_start e = false) :
    rewrite_between renderable_plantuml_start renderable_plantuml_end
      (plantumlCallback renderer dir)
      (fenceStartTok :: Event.text S :: fenceEndTok :: rest) st =
      .ok (replacementEvents (svgPath dir (sha1hex S)) ++ rest,
           missState dir S output outS errS st) ∧
    ("PlantUML Exit Status: exit status: " ++ toString output.exitCode)
      ∈ (missState dir S output outS errS st).log ∧
    ("PlantUML stderr: " ++ errS) ∈ (missState dir S output outS errS st).log := by
  have hE := extractCode_span S
  refine ⟨?_, ?_, ?_⟩
  · apply rewrite_span _ _ _ _ _ _ _ hrest
    have hmiss := plantumlCallback_miss renderer dir [fenceStartTok, Event.text S, fenceEndTok]
      st output outS errS (by rw [hE]; exact hm) (by rw [hE]; exact hr) ho he
    rw [hE] at hmiss
    exact hmiss
  · simp [missState, commonLog]
  · simp [missState, commonLog]

/-- The subprocess result of `failingRenderer`: exit status 1 and no created
artifact. -/
def failOutput : SubprocessResult := ⟨1, some "", some "PlantUML crashed", []⟩

/-- Witness for C7: a concrete failing render still yields the image
reference, the diagnostic report and the processed remainder. -/
theorem renderer_failure_lenient_witness :
    rewrite_between renderable_plantuml_start renderable_plantuml_end
      (plantumlCallback failingRenderer "out")
      (fenceStartTok :: Event.text "FOO" :: fenceEndTok :: [Event.text " more"]) emptyState =
      .ok (replacementEvents (svgPath "out" (sha1hex "FOO")) ++ [Event.text " more"],
           missState "out" "FOO" failOutput "" "PlantUML crashed" emptyState) ∧
    ("PlantUML Exit Status: exit status: " ++ toString failOutput.exitCode)
      ∈ (missState "out" "FOO" failOutput "" "PlantUML crashed" emptyState).log ∧
    ("PlantUML stderr: " ++ "PlantUML crashed")
      ∈ (missState "out" "FOO" failOutput "" "PlantUML crashed" emptyState).log :=
  renderer_failure_lenient failingRenderer "out" "FOO" [Event.text " more"] emptyState
    failOutput "" "PlantUML crashed" (by decide) rfl rfl rfl (Or.inl (by decide)) (by decide)

set_option maxRecDepth 100000 in
/-- C10: replacement shape. Whenever the callback succeeds, the replacement
is exactly three tokens — an inline image start, an inline image end and a
soft break — both image tokens carrying the absolute artifact path
`root/build_dir/plantuml-renderer/<fingerprint-hex>.svg` as URL and an empty
title, and no token of the original span survives. -/
theorem replacement_shape (renderer : Renderer) (context : PreprocessorContext)
    (events out : List Event) (st st' : PipeState)
    (h : plantumlCallback renderer (determine_plantuml_output_directory context) events st =
         .ok (out, st')) :
    out = [Event.start (Tag.image LinkType.inline
             (context.root ++ "/" ++ context.build_dir ++ "/" ++ "plantuml-renderer" ++ "/" ++
              sha1hex (extractCode events) ++ ".svg") ""),
           Event.end_ (Tag.image LinkType.inline
             (context.root ++ "/" ++ context.build_dir ++ "/" ++ "plantuml-renderer" ++ "/" ++
              sha1hex (extractCode events) ++ ".svg") ""),
           Event.softBreak] := by
  have hshape : out = replacementEvents (svgPath (determine_plantuml_output_directory context)
      (sha1hex (extractCode events))) := by
    simp only [plantumlCallback] at h
    split at h
    · simp only [Outcome.ok.injEq, Prod.mk.injEq] at h
      exact h.1.symm
    · split at h
      · exact absurd h (by simp)
      · split at h
        · exact absurd h (by simp)
        · split at h
          · exact absurd h (by simp)
          · simp only [Outcome.ok.injEq, Prod.mk.injEq] at h
            exact h.1.symm
  rw [hshape]
  rfl

/-- The state holding the pre-rendered artifact for the "X" fixture. -/
def hitStateX : PipeState :=
  ⟨["root/book/plantuml-renderer/c032adc1ff629c9b66f22749ad667e6beadf144b.svg"], [], [], []⟩

set_option maxRecDepth 100000 in
/-- Witness for C10 on a concrete hit resolution. -/
theorem replacement_shape_witness :
    plantumlCallback stubRenderer (determine_plantuml_output_directory ⟨"root", "book"⟩)
        [Event.text "X"] hitStateX =
      .ok (replacementEvents (svgPath (determine_plantuml_output_directory ⟨"root", "book"⟩)
             (sha1hex (extractCode [Event.text "X"]))),
           hitState (determine_plantuml_output_directory ⟨"root", "book"⟩)
             (extractCode [Event.text "X"]) hitStateX) ∧
    replacementEvents (svgPath (determine_plantuml_output_directory ⟨"root", "book"⟩)
        (sha1hex (extractCode [Event.text "X"]))) =
      [Event.start (Tag.image LinkType.inline
         ("root" ++ "/" ++ "book" ++ "/" ++ "plantuml-renderer" ++ "/" ++
          sha1hex (extractCode [Event.text "X"]) ++ ".svg") ""),
       Event.end_ (Tag.image LinkType.inline
         ("root" ++ "/" ++ "book" ++ "/" ++ "plantuml-renderer" ++ "/" ++
          sha1hex (extractCode [Event.text "X"]) ++ ".svg") ""),
       Event.softBreak] :=
  ⟨by decide,
   replacement_shape stubRenderer ⟨"root", "book"⟩ [Event.text "X"]
     (replacementEvents (svgPath (determine_plantuml_output_directory ⟨"root", "book"⟩)
        (sha1hex (extractCode [Event.text "X"]))))
     hitStateX
     (hitState (determine_plantuml_output_directory ⟨"root", "book"⟩)
        (extractCode [Event.text "X"]) hitStateX)
     (by decide)⟩

/-- Does an event start an image reference? -/
def isImageStart : Event → Bool
  | .start (.image _ _ _) => true
  | _ => false

/-- C2 (divergence at the failing input): a document whose token stream ends
while a renderable region is still open — `[fence start, text "FOO"]` with no
end fence — is processed without any error: the rewriter (modelled from the
spec, whose §9 records that the reference implementation silently drops an
unterminated region's buffer) returns `ok` with the buffered content gone,
and the whole chapter pipeline succeeds with empty output instead of
surfacing an "unterminated region" error. -/
theorem unterminated_region_dropped :
    rewrite_between renderable_plantuml_start renderable_plantuml_end
      (plantumlCallback stubRenderer "out")
      [fenceStartTok, Event.text "FOO"] emptyState = .ok ([], emptyState) ∧
    processChapter stubRenderer "out" (fun evs => Except.ok (extractCode evs))
      [fenceStartTok, Event.text "FOO"] emptyState = .ok ("", emptyState) := by
  constructor <;> rfl

/-- C8: end-to-end replacement. For a document holding one renderable fenced
block with diagram source `S`, between surrounding prose, the rewritten token
stream contains exactly one image reference, whose URL is the artifact path
with stem `sha1hex S`, and the literal text `S` no longer appears among the
output tokens. -/
theorem single_block_replacement (renderer : Renderer) (dir S : String) (st : PipeState)
    (output : SubprocessResult) (outS errS : String)
    (hS1 : S ≠ "text ") (hS2 : S ≠ " more")
    (hm : svgPath dir (sha1hex S) ∉ st.fs)
    (hr : renderer (pumlPath dir (sha1hex S)) (st.fs ++ [pumlPath dir (sha1hex S)]) = some output)
    (ho : output.stdoutUtf8 = some outS)
    (he : output.stderrUtf8 = some errS) :
    rewrite_between renderable_plantuml_start renderable_plantuml_end
      (plantumlCallback renderer dir)
      [Event.text "text ", fenceStartTok, Event.text S, fenceEndTok, Event.text " more"] st =
      .ok ([Event.text "text ",
            Event.start (Tag.image LinkType.inline (svgPath dir (sha1hex S)) ""),
            Event.end_ (Tag.image LinkType.inline (svgPath dir (sha1hex S)) ""),
            Event.softBreak,
            Event.text " more"],
           missState dir S output outS errS st) ∧
    svgPath dir (sha1hex S) = dir ++ "/" ++ sha1hex S ++ ".svg" ∧
    [Event.text "text ",
     Event.start (Tag.image LinkType.inline (svgPath dir (sha1hex S)) ""),
     Event.end_ (Tag.image LinkType.inline (svgPath dir (sha1hex S)) ""),
     Event.softBreak,
     Event.text " more"].filter isImageStart =
      [Event.start (Tag.image LinkType.inline (svgPath dir (sha1hex S)) "")] ∧
    Event.text S ∉
      [Event.text "text ",
       Event.start (Tag.image LinkType.inline (svgPath dir (sha1hex S)) ""),
       Event.end_ (Tag.image LinkType.inline (svgPath dir (sha1hex S)) ""),
       Event.softBreak,
       Event.text " more"] := by
  have hE := extractCode_span S
  have hmiss := plantumlCallback_miss renderer dir [fenceStartTok, Event.text S, fenceEndTok]
    st output outS errS (by rw [hE]; exact hm) (by rw [hE]; exact hr) ho he
  rw [hE] at hmiss
  have hspan := rewrite_span (plantumlCallback renderer dir) S [Event.text " more"] st _ _
    hmiss (by decide)
  simp only [rewrite_between] at hspan
  have hdoc := rewriteGo_cons_pass renderable_plantuml_start renderable_plantuml_end
    (plantumlCallback renderer dir) (Event.text "text ") _ st _ _ rfl hspan
  refine ⟨?_, rfl, ?_, ?_⟩
  · simpa [rewrite_between, replacementEvents] using hdoc
  · simp [List.filter, isImageStart]
  · simp [hS1, hS2]

set_option maxRecDepth 100000 in
/-- Witness for C8 at the concrete source "FOO" rendered by a failing
renderer. -/
theorem single_block_replacement_witness :
    rewrite_between renderable_plantuml_start renderable_plantuml_end
      (plantumlCallback failingRenderer "out")
      [Event.text "text ", fenceStartTok, Event.text "FOO", fenceEndTok, Event.text " more"]
      emptyState =
      .ok ([Event.text "text ",
            Event.start (Tag.image LinkType.inline (svgPath "out" (sha1hex "FOO")) ""),
            Event.end_ (Tag.image LinkType.inline (svgPath "out" (sha1hex "FOO")) ""),
            Event.softBreak,
            Event.text " more"],
           missState "out" "FOO" failOutput "" "PlantUML crashed" emptyState) ∧
    svgPath "out" (sha1hex "FOO") = "out" ++ "/" ++ sha1hex "FOO" ++ ".svg" ∧
    [Event.text "text ",
     Event.start (Tag.image LinkType.inline (svgPath "out" (sha1hex "FOO")) ""),
     Event.end_ (Tag.image LinkType.inline (svgPath "out" (sha1hex "FOO")) ""),
     Event.softBreak,
     Event.text " more"].filter isImageStart =
      [Event.start (Tag.image LinkType.inline (svgPath "out" (sha1hex "FOO")) "")] ∧
    Event.text "FOO" ∉
      [Event.text "text ",
       Event.start (Tag.image LinkType.inline (svgPath "out" (sha1hex "FOO")) ""),
       Event.end_ (Tag.image LinkType.inline (svgPath "out" (sha1hex "FOO")) ""),
       Event.softBreak,
       Event.text " more"] :=
  single_block_replacement failingRenderer "out" "FOO" emptyState failOutput ""
    "PlantUML crashed" (by decide) (by decide) (by decide) rfl rfl rfl

/-- C9 counterexample: at a concrete chapter whose serializer fails, the
pipeline does not propagate the failure to the caller as an error value —
the code calls `.unwrap()` on the mapped serialization error inside the
`for_each_mut` closure, so the outcome is a panic, not a returned `Err`. -/
theorem serialization_error_not_propagated :
    (processChapter stubRenderer "out" (fun _ => Except.error "boom") [Event.text "hello"]
        emptyState).isErr = false ∧
    processChapter stubRenderer "out" (fun _ => Except.error "boom") [Event.text "hello"]
      emptyState = .panicked ("Markdown serialization failed: boom") := by
  constructor <;> rfl

/-- C9 (amended): failure of re-serializing the rewritten token sequence is
fatal and not swallowed — the pipeline panics with the formatted
serialization error message — but it is not returned to the caller as an
error value. -/
theorem serialization_failure_fatal (renderer : Renderer) (dir : String)
    (serialize : List Event → Except String String) (events : List Event) (st : PipeState)
    (out : List Event) (st' : PipeState) (e : String)
    (hrw : rewrite_between renderable_plantuml_start renderable_plantuml_end
             (plantumlCallback renderer dir) events st = .ok (out, st'))
    (hser : serialize out = .error e) :
    processChapter renderer dir serialize events st =
      .panicked ("Markdown serialization failed: " ++ e) := by
  simp [processChapter, hrw, hser]

/-- Witness for the amended C9 at a concrete document and failing
serializer. -/
theorem serialization_failure_fatal_witness :
    processChapter stubRenderer "out" (fun _ => Except.error "boom") [Event.text "hello"]
      emptyState = .panicked ("Markdown serialization failed: " ++ "boom") :=
  serialization_failure_fatal stubRenderer "out" (fun _ => Except.error "boom")
    [Event.text "hello"] emptyState [Event.text "hello"] emptyState "boom" rfl rfl
